import Mathlib

/-!
Verification of the client-side authorization gating of the wms-frontend
repository: the permission evaluator (src/src/utils/permissions.js), the
render guard (src/src/components/PermissionGate.jsx), the sidebar
navigation table (src/src/components/Layout.tsx) and the top-level route
elements (src/src/App.tsx), shallowly embedded in Lean 4.
-/

namespace WmsFrontend

/-- Entry of the permission table: a record with an `allowed` flag and an
`actions` array, as stored under each module key of the `permissions`
object.  An absent `actions` field behaves exactly like an empty array in
every reader (`?.includes` and `|| []`), so it is embedded as `[]`. -/
structure PermEntry where
  allowed : Bool
  actions : List String
deriving DecidableEq, Repr

/-- The permissions object: a JavaScript object mapping module-name keys to
entries, embedded as an association list with (object-semantics) unique
keys. -/
abbrev PermTable := List (String × PermEntry)

/-- The slice of the user object that the permission code reads: only
`role` (a string; the declared union in src/src/api/index.ts is
superadmin | manager | user) and the optional `permissions` field.  The
remaining identity fields (id, name, email, ...) are never read by the
gating code and are omitted. -/
structure UserData where
  role : String
  permissions : Option PermTable
deriving DecidableEq, Repr

/-- Mutable state of the PermissionManager singleton
(src/src/utils/permissions.js): fields `user` and `permissions`, both
null in the freshly constructed instance. -/
structure PMState where
  user : Option UserData
  permissions : Option PermTable
deriving DecidableEq, Repr

/-- The state produced by the constructor: both fields null. -/
def emptyManager : PMState := { user := none, permissions := none }

/-- First entry under a key, i.e. JavaScript property lookup
permissions[module] on the object embedded as an association list. -/
def lookupEntry (t : PermTable) (m : String) : Option PermEntry :=
  match t with
  | [] => none
  | (k, e) :: rest => if k = m then some e else lookupEntry rest m

/-- PermissionManager.initialize(userData):
`this.user = userData; this.permissions = userData.permissions || {}`.
A missing `permissions` field is replaced by the empty object. -/
def initializeState (u : UserData) : PMState :=
  { user := some u, permissions := some (u.permissions.getD []) }

/-- PermissionManager.clear(): sets both fields back to null. -/
def clearState (_ : PMState) : PMState :=
  { user := none, permissions := none }

/-- PermissionManager.hasModuleAccess(module):
`this.permissions?.[module]?.allowed === true`.  Null permissions or an
absent entry short-circuit to false. -/
def hasModuleAccess (s : PMState) (m : String) : Bool :=
  match s.permissions with
  | none => false
  | some t =>
    match lookupEntry t m with
    | none => false
    | some e => e.allowed

/-- PermissionManager.canPerformAction(module, action):
`this.permissions?.[module]?.actions?.includes(action) === true`.
Note that the `allowed` flag of the entry is not consulted. -/
def canPerformAction (s : PMState) (m a : String) : Bool :=
  match s.permissions with
  | none => false
  | some t =>
    match lookupEntry t m with
    | none => false
    | some e => e.actions.contains a

/-- JavaScript runtime error raised by the embedded code. -/
inductive JsError where
  | typeError
deriving DecidableEq, Repr

/-- PermissionManager.getAccessibleModules():
`Object.entries(this.permissions).filter(([_, data]) => data.allowed).map(([module]) => module)`.
When `this.permissions` is null, `Object.entries(null)` throws a
TypeError, embedded as the error result. -/
def getAccessibleModules (s : PMState) : Except JsError (List String) :=
  match s.permissions with
  | none => .error .typeError
  | some t => .ok ((t.filter (fun p => p.2.allowed)).map (fun p => p.1))

/-- PermissionManager.getModuleActions(module):
`this.permissions?.[module]?.actions || []`. -/
def getModuleActions (s : PMState) (m : String) : List String :=
  match s.permissions with
  | none => []
  | some t =>
    match lookupEntry t m with
    | none => []
    | some e => e.actions

/-- PermissionManager.isSuperAdmin(): `this.user?.role === 'super_admin'`.
The comparison string carries an underscore, unlike the role union
superadmin | manager | user declared in src/src/api/index.ts. -/
def isSuperAdmin (s : PMState) : Bool :=
  match s.user with
  | none => false
  | some u => u.role == "super_admin"

/-- PermissionManager.isManager(): `this.user?.role === 'manager'`. -/
def isManager (s : PMState) : Bool :=
  match s.user with
  | none => false
  | some u => u.role == "manager"

/-- Props of the PermissionGate component that steer the decision
(src/src/components/PermissionGate.jsx): optional `module` and `action`
strings and the two role-requirement flags, whose defaults are
undefined, undefined, false, false. -/
structure GateOptions where
  module : Option String
  action : Option String
  requireSuperAdmin : Bool
  requireManager : Bool
deriving DecidableEq, Repr

/-- Which subtree the gate yields: the `children` prop or the `fallback`
prop (fallback defaults to null, i.e. rendering nothing). -/
inductive GateResult where
  | children
  | fallback
deriving DecidableEq, Repr

/-- Truthiness of an optional string prop in JavaScript: undefined and
the empty string are falsy, every other string is truthy. -/
def jsTruthy : Option String → Bool
  | none => false
  | some s => !(s == "")

/-- JavaScript property access coerces an undefined key to the string
"undefined": `obj[undefined]` reads `obj["undefined"]`.  This is the key
the gate passes to canPerformAction when `module` is not given. -/
def jsKey : Option String → String
  | none => "undefined"
  | some s => s

/-- The PermissionGate component body, clause for clause:
1. requireSuperAdmin and not isSuperAdmin() — fallback;
2. requireManager and not isManager() — fallback;
3. neither module nor action truthy — children;
4. module truthy and no module access — fallback;
5. action truthy and canPerformAction(module, action) false — fallback;
6. otherwise children. -/
def permissionGate (s : PMState) (o : GateOptions) : GateResult :=
  if o.requireSuperAdmin && !(isSuperAdmin s) then .fallback
  else if o.requireManager && !(isManager s) then .fallback
  else if !(jsTruthy o.module) && !(jsTruthy o.action) then .children
  else if jsTruthy o.module && !(hasModuleAccess s (jsKey o.module)) then .fallback
  else if jsTruthy o.action && !(canPerformAction s (jsKey o.module) (jsKey o.action)) then .fallback
  else .children

/-- One sidebar navigation entry of src/src/components/Layout.tsx: display
name, destination href and the declared role list (the icon prop carries
no authorization content and is omitted). -/
structure NavItem where
  name : String
  href : String
  roles : List String
deriving DecidableEq, Repr

/-- The static `navigation` array of Layout.tsx, in declaration order. -/
def navigation : List NavItem :=
  [ ⟨"Dashboard", "/", ["superadmin", "manager", "user"]⟩,
    ⟨"Users", "/users", ["superadmin", "manager"]⟩,
    ⟨"Products", "/products", ["superadmin", "manager"]⟩,
    ⟨"Customers", "/customers", ["superadmin", "manager"]⟩,
    ⟨"Orders", "/orders", ["superadmin", "manager"]⟩,
    ⟨"Tasks", "/tasks", ["superadmin", "manager", "user"]⟩,
    ⟨"Roles", "/roles", ["superadmin"]⟩,
    ⟨"Profile", "/profile", ["superadmin", "manager", "user"]⟩,
    ⟨"Logs", "/logs", ["superadmin", "manager", "user"]⟩ ]

/-- Layout.tsx: `navigation.filter(item => item.roles.includes(user.role))`,
the entries actually shown in the sidebar for a role. -/
def filteredNavigation (role : String) : List NavItem :=
  navigation.filter (fun item => item.roles.contains role)

/-- What a route element of App.tsx produces for a location: it either
renders a page component (inside Layout for the protected pages) or
issues a `Navigate` redirect to another path. -/
inductive RouteOutcome where
  | render (view : String)
  | navigate (target : String)
deriving DecidableEq, Repr

/-- The `Routes` table of src/src/App.tsx, element by element.  Every
protected element renders its page when `user` is non-null and redirects
to /login otherwise; only the /roles element additionally requires
`user.role === 'superadmin'`.  The catch-all `*` route redirects to
/dashboard unconditionally. -/
def routeElement (path : String) (user : Option UserData) : RouteOutcome :=
  if path = "/login" then
    match user with
    | some _ => .navigate "/dashboard"
    | none => .render "LoginPage"
  else if path = "/" then
    match user with
    | some _ => .navigate "/dashboard"
    | none => .navigate "/login"
  else if path = "/dashboard" then
    match user with
    | some _ => .render "Dashboard"
    | none => .navigate "/login"
  else if path = "/users" then
    match user with
    | some _ => .render "UserManagementPage"
    | none => .navigate "/login"
  else if path = "/products" then
    match user with
    | some _ => .render "ProductManagementPage"
    | none => .navigate "/login"
  else if path = "/customers" then
    match user with
    | some _ => .render "CustomerManagementPage"
    | none => .navigate "/login"
  else if path = "/orders" then
    match user with
    | some _ => .render "POManagementPage"
    | none => .navigate "/login"
  else if path = "/tasks" then
    match user with
    | some _ => .render "TaskManagementPage"
    | none => .navigate "/login"
  else if path = "/roles" then
    match user with
    | some u => if u.role == "superadmin" then .render "RoleManagementPage" else .navigate "/login"
    | none => .navigate "/login"
  else if path = "/profile" then
    match user with
    | some _ => .render "UserProfilePage"
    | none => .navigate "/login"
  else if path = "/logs" then
    match user with
    | some _ => .render "LogViewerPage"
    | none => .navigate "/login"
  else .navigate "/dashboard"

/-- A navigation attempt resolved to the page it finally renders:
`Navigate` elements immediately retarget the router, so redirects are
followed (with fuel against cycles) until a page renders. -/
def resolveRoute : Nat → String → Option UserData → Option String
  | 0, _, _ => none
  | fuel + 1, path, user =>
    match routeElement path user with
    | .render v => some v
    | .navigate p => resolveRoute fuel p user

/-- The destinations behind authentication in App.tsx (every route except
/login, / and the catch-all). -/
def protectedDestinations : List String :=
  ["/dashboard", "/users", "/products", "/customers", "/orders",
   "/tasks", "/roles", "/profile", "/logs"]

/-- The role sets the router itself enforces, read off the route
elements of App.tsx: only the /roles element restricts the role (to
superadmin); every other protected element admits any authenticated
role of the declared union. -/
def routerRequiredRoles (path : String) : List String :=
  if path = "/roles" then ["superadmin"] else ["superadmin", "manager", "user"]

/-- The page component each protected destination of App.tsx renders. -/
def protectedView (path : String) : String :=
  if path = "/dashboard" then "Dashboard"
  else if path = "/users" then "UserManagementPage"
  else if path = "/products" then "ProductManagementPage"
  else if path = "/customers" then "CustomerManagementPage"
  else if path = "/orders" then "POManagementPage"
  else if path = "/tasks" then "TaskManagementPage"
  else if path = "/roles" then "RoleManagementPage"
  else if path = "/profile" then "UserProfilePage"
  else "LogViewerPage"

/-- The closed role union declared on the User type in
src/src/api/index.ts. -/
def roleStrings : List String := ["superadmin", "manager", "user"]

/-- A small concrete permission table used to instantiate hypotheses of
the universally quantified theorems. -/
def sampleTable : PermTable :=
  [("users", ⟨true, ["read"]⟩), ("products", ⟨false, ["read"]⟩)]

/-- Lookup in a table with unique keys finds exactly the entries of the
underlying list. -/
theorem lookupEntry_eq_some_iff (t : PermTable) (m : String) (e : PermEntry)
    (hnd : (t.map Prod.fst).Nodup) :
    lookupEntry t m = some e ↔ (m, e) ∈ t := by
  induction t with
  | nil => simp [lookupEntry]
  | cons hd rest ih =>
    obtain ⟨k, e2⟩ := hd
    simp only [List.map_cons, List.nodup_cons] at hnd
    rcases eq_or_ne k m with rfl | hkm
    · simp only [lookupEntry, if_pos rfl, List.mem_cons]
      constructor
      · intro h
        injection h with h
        subst h
        exact Or.inl rfl
      · rintro (h | h)
        · injection h with h1 h2
          simp [h2]
        · exact absurd (List.mem_map.2 ⟨(k, e), h, rfl⟩) hnd.1
    · simp only [lookupEntry, if_neg hkm, List.mem_cons]
      rw [ih hnd.2]
      constructor
      · exact fun h => Or.inr h
      · rintro (h | h)
        · exact absurd (congrArg Prod.fst h).symm hkm
        · exact h

/-- Lookup misses every key that is not in the table. -/
theorem lookupEntry_eq_none_of_not_mem (t : PermTable) (m : String)
    (h : ¬ m ∈ t.map Prod.fst) : lookupEntry t m = none := by
  induction t with
  | nil => rfl
  | cons hd rest ih =>
    obtain ⟨k, e⟩ := hd
    simp only [List.map_cons, List.mem_cons] at h
    push_neg at h
    simp only [lookupEntry]
    rw [if_neg (fun hk => h.1 hk.symm)]
    exact ih h.2

/-- Claim C1, evaluated at the failing input.  The claim says that an
Identity with role superadmin (a member of the declared role union) makes
isSuperAdmin() true and Gate with requireSuperAdmin render its children.
The code compares against the string super_admin instead, so for the
scenario Identity role superadmin with no PermissionTable entries,
isSuperAdmin() is false and the gate yields the fallback; the comparison
succeeds only for the out-of-union role string super_admin. -/
theorem c1_superadmin_role_string_bug :
    isSuperAdmin (initializeState ⟨"superadmin", none⟩) = false ∧
    permissionGate (initializeState ⟨"superadmin", none⟩)
      ⟨none, none, true, false⟩ = GateResult.fallback ∧
    isSuperAdmin { user := some ⟨"super_admin", none⟩, permissions := none } = true := by
  refine ⟨by decide, by decide, by decide⟩

/-- Claim C3, refuted at a concrete input.  For the table mapping
products to the entry with allowed false and actions containing read,
hasModuleAccess is false while canPerformAction is true: the code never
consults the allowed flag in canPerformAction, so the claimed dependency
invariant fails. -/
theorem c3_counterexample_allowed_not_consulted :
    hasModuleAccess
      (initializeState ⟨"manager", some [("products", ⟨false, ["read"]⟩)]⟩)
      "products" = false ∧
    canPerformAction
      (initializeState ⟨"manager", some [("products", ⟨false, ["read"]⟩)]⟩)
      "products" "read" = true := by
  refine ⟨by decide, by decide⟩

/-- Claim C3 as amended: canPerformAction(m, a) is true exactly when the
permission table is present and has an entry for m whose actions list
contains a — independently of that entry's allowed flag. -/
theorem c3_amended_can_perform_action_iff (s : PMState) (m a : String) :
    canPerformAction s m a = true ↔
      ∃ t e, s.permissions = some t ∧ lookupEntry t m = some e ∧ a ∈ e.actions := by
  unfold canPerformAction
  cases hp : s.permissions with
  | none => simp
  | some t =>
    cases he : lookupEntry t m with
    | none => simp [he]
    | some e => simp [he]

/-- Claim C4, evaluated at the failing input.  Four of the five evaluator
operations fail closed on the cleared state, but getAccessibleModules
calls Object.entries on the null permissions holder and throws a
TypeError instead of returning an empty sequence. -/
theorem c4_get_accessible_modules_throws (s : PMState) (m a : String) :
    getAccessibleModules emptyManager = Except.error JsError.typeError ∧
    getAccessibleModules (clearState s) = Except.error JsError.typeError ∧
    hasModuleAccess (clearState s) m = false ∧
    canPerformAction (clearState s) m a = false ∧
    isSuperAdmin (clearState s) = false ∧
    isManager (clearState s) = false ∧
    getModuleActions (clearState s) m = [] :=
  ⟨rfl, rfl, rfl, rfl, rfl, rfl, rfl⟩

/-- Claim C5: with no permission table — never initialized, cleared by
logout, or initialized from user data whose permissions field is absent
(treated as the empty table) — hasModuleAccess and canPerformAction deny
every module and action. -/
theorem c5_fail_closed_missing_table (s : PMState) (u : UserData) (m a : String)
    (hu : u.permissions = none) :
    hasModuleAccess emptyManager m = false ∧
    canPerformAction emptyManager m a = false ∧
    hasModuleAccess (clearState s) m = false ∧
    canPerformAction (clearState s) m a = false ∧
    hasModuleAccess (initializeState u) m = false ∧
    canPerformAction (initializeState u) m a = false := by
  refine ⟨rfl, rfl, rfl, rfl, ?_, ?_⟩ <;>
    simp [initializeState, hasModuleAccess, canPerformAction, hu, lookupEntry]

/-- Witness for C5 at a concrete identity with an absent permissions
field. -/
theorem c5_fail_closed_missing_table_witness :
    (⟨"user", none⟩ : UserData).permissions = none ∧
    hasModuleAccess (initializeState ⟨"user", none⟩) "users" = false ∧
    canPerformAction (initializeState ⟨"user", none⟩) "users" "read" = false :=
  ⟨rfl,
   (c5_fail_closed_missing_table emptyManager ⟨"user", none⟩ "users" "read" rfl).2.2.2.2.1,
   (c5_fail_closed_missing_table emptyManager ⟨"user", none⟩ "users" "read" rfl).2.2.2.2.2⟩

/-- Claim C6: for every identity whose role (a member of the declared
role union) is not superadmin, a gate with requireSuperAdmin set yields
the fallback, and the outcome is the same for any two permission tables
and any two option records — the role check at step 1 decides before any
module or action check can matter. -/
theorem c6_gate_superadmin_precedence (u : UserData) (p1 p2 : Option PermTable)
    (o1 o2 : GateOptions)
    (hrole : u.role ∈ roleStrings) (hns : u.role ≠ "superadmin")
    (h1 : o1.requireSuperAdmin = true) (h2 : o2.requireSuperAdmin = true) :
    permissionGate ⟨some u, p1⟩ o1 = GateResult.fallback ∧
    permissionGate ⟨some u, p1⟩ o1 = permissionGate ⟨some u, p2⟩ o2 := by
  have hrr : u.role = "manager" ∨ u.role = "user" := by
    simp only [roleStrings, List.mem_cons, List.mem_singleton] at hrole
    rcases hrole with h | h | h
    · exact absurd h hns
    · exact Or.inl h
    · exact Or.inr (by simpa using h)
  have hsa : (u.role == "super_admin") = false := by
    rcases hrr with h | h <;> rw [h] <;> decide
  constructor
  · simp [permissionGate, isSuperAdmin, h1, hsa]
  · simp [permissionGate, isSuperAdmin, h1, h2, hsa]

/-- Witness for C6 with role manager, two different tables and two
different option records. -/
theorem c6_gate_superadmin_precedence_witness :
    permissionGate ⟨some ⟨"manager", none⟩, none⟩
      ⟨some "products", some "delete", true, false⟩ = GateResult.fallback ∧
    permissionGate ⟨some ⟨"manager", none⟩, none⟩
        ⟨some "products", some "delete", true, false⟩ =
      permissionGate ⟨some ⟨"manager", none⟩, some sampleTable⟩
        ⟨none, none, true, true⟩ :=
  c6_gate_superadmin_precedence ⟨"manager", none⟩ none (some sampleTable)
    ⟨some "products", some "delete", true, false⟩ ⟨none, none, true, true⟩
    (by decide) (by decide) rfl rfl

/-- Claim C8: an entry whose actions list is exactly the singleton manage
grants no other action, whatever its allowed flag says — the code
performs a plain membership test with no superset inference. -/
theorem c8_manage_not_superset (s : PMState) (t : PermTable) (m a : String)
    (hp : s.permissions = some t)
    (he : lookupEntry t m = some ⟨true, ["manage"]⟩)
    (ha : a ≠ "manage") :
    canPerformAction s m a = false := by
  simp [canPerformAction, hp, he, ha]

/-- Witness for C8: the manage-only products entry does not grant
delete. -/
theorem c8_manage_not_superset_witness :
    ("delete" : String) ≠ "manage" ∧
    canPerformAction
      (initializeState ⟨"manager", some [("products", ⟨true, ["manage"]⟩)]⟩)
      "products" "delete" = false :=
  ⟨by decide,
   c8_manage_not_superset _ [("products", ⟨true, ["manage"]⟩)] "products" "delete"
     rfl rfl (by decide)⟩

/-- Claim C9: on an initialized table with (object-semantics) unique
keys, a module is in the sequence getAccessibleModules returns exactly
when hasModuleAccess holds for it; the sequence is the keys whose entry
has allowed true. -/
theorem c9_accessible_modules_iff_has_access (u : Option UserData)
    (t : PermTable) (m : String) (l : List String)
    (hnd : (t.map Prod.fst).Nodup)
    (hl : getAccessibleModules ⟨u, some t⟩ = Except.ok l) :
    l = (t.filter (fun p => p.2.allowed)).map (fun p => p.1) ∧
    (m ∈ l ↔ hasModuleAccess ⟨u, some t⟩ m = true) := by
  have hleq : l = (t.filter (fun p => p.2.allowed)).map (fun p => p.1) := by
    have : Except.ok (ε := JsError) ((t.filter (fun p => p.2.allowed)).map (fun p => p.1)) = Except.ok l := hl
    injection this with h
    exact h.symm
  subst hleq
  refine ⟨rfl, ?_⟩
  have hmem : m ∈ (t.filter (fun p => p.2.allowed)).map (fun p => p.1) ↔
      ∃ e, (m, e) ∈ t ∧ e.allowed = true := by
    simp only [List.mem_map, List.mem_filter]
    constructor
    · rintro ⟨⟨m1, e⟩, ⟨hmem, hal⟩, rfl⟩
      exact ⟨e, hmem, hal⟩
    · rintro ⟨e, hmem, hal⟩
      exact ⟨(m, e), ⟨hmem, hal⟩, rfl⟩
  rw [hmem]
  cases hlk : lookupEntry t m with
  | none =>
    have hfa : hasModuleAccess ⟨u, some t⟩ m = false := by
      simp [hasModuleAccess, hlk]
    rw [hfa]
    simp only [Bool.false_eq_true, iff_false]
    rintro ⟨e, hmem2, -⟩
    have h2 := (lookupEntry_eq_some_iff t m e hnd).2 hmem2
    rw [hlk] at h2
    cases h2
  | some e =>
    have hfa : hasModuleAccess ⟨u, some t⟩ m = e.allowed := by
      simp [hasModuleAccess, hlk]
    rw [hfa]
    constructor
    · rintro ⟨e2, hmem2, hal2⟩
      have h2 := (lookupEntry_eq_some_iff t m e2 hnd).2 hmem2
      rw [hlk] at h2
      injection h2 with h2
      rw [h2]
      exact hal2
    · intro hal
      exact ⟨e, (lookupEntry_eq_some_iff t m e hnd).1 hlk, hal⟩

/-- Witness for C9 on the sample table: users is accessible, products
(allowed false) is not part of the returned sequence. -/
theorem c9_accessible_modules_witness :
    ((sampleTable.map Prod.fst).Nodup) ∧
    getAccessibleModules ⟨none, some sampleTable⟩ = Except.ok ["users"] ∧
    (("users" : String) ∈ ["users"] ↔ hasModuleAccess ⟨none, some sampleTable⟩ "users" = true) :=
  ⟨by decide, rfl,
   (c9_accessible_modules_iff_has_access none sampleTable "users" ["users"]
     (by decide) rfl).2⟩

/-- Claim C10: a gate given an action but no module fails closed — the
undefined module prop reaches canPerformAction as the coerced key
"undefined", which is not a key of any table whose keys are actual
module names, so the membership test denies and the fallback renders.
The action must be an actual action string (the empty string is falsy in
JavaScript and would make the gate treat both props as absent). -/
theorem c10_action_without_module_fails_closed (s : PMState) (a : String)
    (ha : a ≠ "")
    (hk : ∀ t, s.permissions = some t → ¬ "undefined" ∈ t.map Prod.fst) :
    permissionGate s ⟨none, some a, false, false⟩ = GateResult.fallback := by
  have hca : canPerformAction s "undefined" a = false := by
    cases hp : s.permissions with
    | none => simp [canPerformAction, hp]
    | some t =>
      simp [canPerformAction, hp, lookupEntry_eq_none_of_not_mem t "undefined" (hk t hp)]
  simp [permissionGate, jsTruthy, jsKey, hca, ha]

/-- Witness for C10: a table with the single genuine module key users
still denies a module-less gate for the action read. -/
theorem c10_action_without_module_witness :
    ("read" : String) ≠ "" ∧
    permissionGate (initializeState ⟨"user", some [("users", ⟨true, ["read"]⟩)]⟩)
      ⟨none, some "read", false, false⟩ = GateResult.fallback :=
  ⟨by decide,
   c10_action_without_module_fails_closed _ "read" (by decide) (by
     intro t ht
     simp only [initializeState, Option.getD, Option.some.injEq] at ht
     subst ht
     decide)⟩

/-- Claim C2, refuted at a concrete input.  The Users navigation entry
declares the role set superadmin, manager — role user is not in it — yet
the /users route element of App.tsx mounts UserManagementPage for an
authenticated identity with role user: the router checks only that a
user is present, so the destination is rendered despite the declared
role set. -/
theorem c2_counterexample_route_rendered_despite_roles :
    (⟨"Users", "/users", ["superadmin", "manager"]⟩ : NavItem) ∈ navigation ∧
    ¬ ("user" ∈ (["superadmin", "manager"] : List String)) ∧
    routeElement "/users" (some ⟨"user", none⟩) =
      RouteOutcome.render "UserManagementPage" := by
  refine ⟨by decide, by decide, by decide⟩

/-- Claim C2 as amended: a role outside a destination's declared role
set never sees that destination in the filtered sidebar navigation, and
the router itself denies by role only for /roles (redirecting
non-superadmin identities); every other destination is mounted for any
authenticated identity regardless of the declared role sets. -/
theorem c2_amended_sidebar_filter (r : String) (item : NavItem) (u : UserData)
    (hr : ¬ r ∈ item.roles) (hu : u.role ≠ "superadmin") :
    ¬ item ∈ filteredNavigation r ∧
    routeElement "/roles" (some u) = RouteOutcome.navigate "/login" := by
  constructor
  · intro hmem
    have h2 := (List.mem_filter.1 hmem).2
    exact hr (by simpa using h2)
  · have hbe : (u.role == "superadmin") = false := by
      cases h : u.role == "superadmin" with
      | false => rfl
      | true => exact absurd (by simpa using h) hu
    simp [routeElement, hbe]

/-- Witness for C2 as amended: role user does not see the Users entry in
the sidebar, and a manager identity is redirected away from /roles. -/
theorem c2_amended_sidebar_filter_witness :
    ¬ ("user" ∈ (["superadmin", "manager"] : List String)) ∧
    ¬ (⟨"Users", "/users", ["superadmin", "manager"]⟩ : NavItem) ∈ filteredNavigation "user" ∧
    routeElement "/roles" (some ⟨"manager", none⟩) = RouteOutcome.navigate "/login" :=
  ⟨by decide,
   (c2_amended_sidebar_filter "user" ⟨"Users", "/users", ["superadmin", "manager"]⟩
     ⟨"manager", none⟩ (by decide) (by decide)).1,
   (c2_amended_sidebar_filter "user" ⟨"Users", "/users", ["superadmin", "manager"]⟩
     ⟨"manager", none⟩ (by decide) (by decide)).2⟩

/-- Claim C7, refuted at a concrete input.  The Customers navigation
entry declares the role set superadmin, manager; for an authenticated
identity with role user, the claimed state machine requires a redirect
to the default landing, but the /customers route element renders
CustomerManagementPage instead of issuing any redirect. -/
theorem c7_counterexample_no_redirect_for_excluded_role :
    (⟨"Customers", "/customers", ["superadmin", "manager"]⟩ : NavItem) ∈ navigation ∧
    ¬ ("user" ∈ (["superadmin", "manager"] : List String)) ∧
    routeElement "/customers" (some ⟨"user", none⟩) =
      RouteOutcome.render "CustomerManagementPage" ∧
    ¬ routeElement "/customers" (some ⟨"user", none⟩) =
      RouteOutcome.navigate "/dashboard" := by
  refine ⟨by decide, by decide, by decide, by decide⟩

/-- Claim C7 as amended: the three-branch state machine holds with the
role sets the router itself enforces (only /roles restricts the role, to
superadmin).  Unauthenticated attempts at any protected destination
redirect to /login; an authenticated identity whose role the router
rejects (possible only at /roles) is redirected — via the immediate
/login to /dashboard forward for logged-in users — to the default
landing Dashboard; an accepted role has the destination's view
rendered. -/
theorem c7_amended_route_state_machine (d : String) (u : UserData)
    (hd : d ∈ protectedDestinations) (hrole : u.role ∈ roleStrings) :
    routeElement d none = RouteOutcome.navigate "/login" ∧
    (¬ u.role ∈ routerRequiredRoles d → resolveRoute 3 d (some u) = some "Dashboard") ∧
    (u.role ∈ routerRequiredRoles d → routeElement d (some u) = RouteOutcome.render (protectedView d)) := by
  by_cases hdr : d = "/roles"
  · subst hdr
    refine ⟨by decide, fun hnr => ?_, fun hr => ?_⟩
    · have hne : ¬ u.role = "superadmin" := by
        simpa [routerRequiredRoles] using hnr
      have hbe : (u.role == "superadmin") = false := by
        cases h : u.role == "superadmin" with
        | false => rfl
        | true => exact absurd (by simpa using h) hne
      simp [resolveRoute, routeElement, hbe]
    · have hre : u.role = "superadmin" := by
        simpa [routerRequiredRoles] using hr
      simp [routeElement, protectedView, hre]
  · have hrr : routerRequiredRoles d = roleStrings := by
      simp [routerRequiredRoles, roleStrings, hdr]
    simp only [protectedDestinations, List.mem_cons, List.not_mem_nil, or_false] at hd
    refine ⟨?_, fun hnr => absurd hrole (hrr ▸ hnr), fun hr => ?_⟩
    · rcases hd with rfl | rfl | rfl | rfl | rfl | rfl | rfl | rfl | rfl <;> decide
    · rcases hd with rfl | rfl | rfl | rfl | rfl | rfl | rfl | rfl | rfl <;>
        first
          | rfl
          | exact absurd rfl hdr

/-- Witness for C7 as amended at destination /roles with role manager:
unauthenticated redirect to login, manager resolved to the Dashboard
landing, and — at destination /dashboard — a manager identity has the
view rendered. -/
theorem c7_amended_route_state_machine_witness :
    routeElement "/roles" none = RouteOutcome.navigate "/login" ∧
    resolveRoute 3 "/roles" (some ⟨"manager", none⟩) = some "Dashboard" ∧
    routeElement "/dashboard" (some ⟨"manager", none⟩) =
      RouteOutcome.render (protectedView "/dashboard") :=
  ⟨(c7_amended_route_state_machine "/roles" ⟨"manager", none⟩ (by decide) (by decide)).1,
   (c7_amended_route_state_machine "/roles" ⟨"manager", none⟩ (by decide) (by decide)).2.1
     (by decide),
   (c7_amended_route_state_machine "/dashboard" ⟨"manager", none⟩ (by decide) (by decide)).2.2
     (by decide)⟩

end WmsFrontend
